import Mathlib

/-!
Verification of the `monoprice_htp1` protocol client
(`src/homeassistant/components/monoprice_htp1/aiohtp1.py`) against its
natural-language specification.

The development shallowly embeds the client: the mirrored device state (the
"mso") is a JSON value tree, Python dicts become association lists that keep
insertion order, and every operation that can raise a Python exception
returns `Except PyErr`.  In-place mutation of the state tree is rendered as
a pure rebuild along the mutated path; the tree is acyclic, so the two are
observationally identical.  Coroutines are embedded as state transformers on
a `Client` record; a coroutine that the source creates but never awaits
contributes no transition (its body never runs).
-/

set_option autoImplicit false

namespace Htp1

/-- Python exceptions that the client code can raise, as an enumerated type. -/
inductive PyErr where
  | typeError
  | keyError
  | valueError
  | indexError
  | attributeError
  | notImplemented
  | jsonDecode
  | htp1 (msg : String)
deriving Repr, DecidableEq

/-- The untyped JSON tree that mirrors the device mso document.  Numbers are
modelled as integers, which covers every value the claims exercise. -/
inductive Json where
  | null
  | bool (b : Bool)
  | num (n : Int)
  | str (s : String)
  | arr (items : List Json)
  | obj (fields : List (String × Json))
deriving Repr

/-- First-match lookup in an association list: Python `d[k]` for a dict with
string keys (Python dicts have unique keys; assoc lists built from them do
too, which callers record as a `Nodup` hypothesis where it matters). -/
def alookup {α : Type} (k : String) : List (String × α) → Option α
  | [] => none
  | (k2, v) :: rest => if k2 = k then some v else alookup k rest

/-- Python `d[k] = v` on a dict: an existing key keeps its position, a new
key is appended (insertion order). -/
def aset {α : Type} (k : String) (v : α) : List (String × α) → List (String × α)
  | [] => [(k, v)]
  | (k2, v2) :: rest => if k2 = k then (k2, v) :: rest else (k2, v2) :: aset k v rest

/-- Python list index normalization: a negative index counts from the end. -/
def normIdx (len : Nat) (i : Int) : Int :=
  if i < 0 then i + len else i

/-- Python `xs[i]` on a list: `none` is an `IndexError`. -/
def listGet {α : Type} (xs : List α) (i : Int) : Option α :=
  if normIdx xs.length i < 0 then none
  else xs.get? (normIdx xs.length i).toNat

/-- Python `xs[i] = v` on a list at an index already known to be valid. -/
def listSet {α : Type} (xs : List α) (i : Int) (v : α) : List α :=
  if normIdx xs.length i < 0 then xs
  else xs.set (normIdx xs.length i).toNat v

/-- The numeric value of an ASCII digit. -/
def digitVal (ch : Char) : Option Nat :=
  if '0' ≤ ch ∧ ch ≤ '9' then some (ch.toNat - '0'.toNat) else none

/-- Accumulate a decimal numeral; `none` on the first non-digit. -/
def digitsToNatAux : Nat → List Char → Option Nat
  | acc, [] => some acc
  | acc, ch :: rest =>
    match digitVal ch with
    | some d => digitsToNatAux (acc * 10 + d) rest
    | none => none

/-- Python `int(node)` on a path segment: an optional sign followed by at
least one ASCII digit; anything else raises `ValueError` (`none`). -/
def parsePyInt (s : String) : Option Int :=
  match s.toList with
  | [] => none
  | '-' :: rest =>
    match rest with
    | [] => none
    | _ => (digitsToNatAux 0 rest).map (fun n => -(n : Int))
  | '+' :: rest =>
    match rest with
    | [] => none
    | _ => (digitsToNatAux 0 rest).map (fun n => (n : Int))
  | l => (digitsToNatAux 0 l).map (fun n => (n : Int))

/-- Python `d[key]` for an arbitrary JSON node `d`: mapping nodes are looked
up by string key (`KeyError` on a miss), sequence nodes by integer index
(`IndexError` out of range), anything else is a `TypeError`. -/
def jsonIndex (d : Json) (key : Json) : Except PyErr Json :=
  match d, key with
  | Json.obj fs, Json.str k =>
    match alookup k fs with
    | some v => Except.ok v
    | none => Except.error PyErr.keyError
  | Json.obj _, _ => Except.error PyErr.keyError
  | Json.arr xs, Json.num i =>
    match listGet xs i with
    | some v => Except.ok v
    | none => Except.error PyErr.indexError
  | Json.arr _, _ => Except.error PyErr.typeError
  | _, _ => Except.error PyErr.typeError

/-- The parent-resolution-plus-assignment core of `_cmd_msoupdate`
(aiohtp1.py lines 197-215): walk `segs` from `d` — parsing the segment with
`int()` when the current node is a sequence, using it as a key otherwise —
and assign `value` under `last` in the container reached.  The source
mutates the aliased node in place; here the path is rebuilt, which is the
same function on trees.  The final assignment does not parse `last` as an
integer (the source converts only traversal segments), so a sequence parent
yields a `TypeError` exactly as `d[last] = value` does with a string index. -/
def setAt (value : Json) (last : String) : Json → List String → Except PyErr Json
  | d, [] =>
    match d with
    | Json.obj fs => Except.ok (Json.obj (aset last value fs))
    | _ => Except.error PyErr.typeError
  | d, node :: rest =>
    match d with
    | Json.arr xs =>
      match parsePyInt node with
      | none => Except.error PyErr.valueError
      | some i =>
        match listGet xs i with
        | none => Except.error PyErr.indexError
        | some child =>
          match setAt value last child rest with
          | Except.ok child2 => Except.ok (Json.arr (listSet xs i child2))
          | Except.error e => Except.error e
    | Json.obj fs =>
      match alookup node fs with
      | none => Except.error PyErr.keyError
      | some child =>
        match setAt value last child rest with
        | Except.ok child2 => Except.ok (Json.obj (aset node child2 fs))
        | Except.error e => Except.error e
    | _ => Except.error PyErr.typeError

/-- Read back the location `setAt` writes: the same traversal, ending in a
read of `last` in the container reached. -/
def getAt : Json → List String → String → Option Json
  | d, [], last =>
    match d with
    | Json.obj fs => alookup last fs
    | _ => none
  | d, node :: rest, last =>
    match d with
    | Json.arr xs =>
      match parsePyInt node with
      | none => none
      | some i =>
        match listGet xs i with
        | none => none
        | some child => getAt child rest last
    | Json.obj fs =>
      match alookup node fs with
      | none => none
      | some child => getAt child rest last
    | _ => none

/-- Python `str.split("/")` over the character list: cut at every slash,
keeping empty segments; the result always has at least one segment. -/
def splitSegsAux : List Char → List Char → List String
  | acc, [] => [String.mk acc.reverse]
  | acc, ch :: rest =>
    if ch = '/' then String.mk acc.reverse :: splitSegsAux [] rest
    else splitSegsAux (ch :: acc) rest

/-- `piece["path"][1:].split("/")` (aiohtp1.py line 196): drop the first
character, then split on slashes. -/
def pathSegs (path : String) : List String :=
  splitSegsAux [] (path.toList.drop 1)

/-- The traversal segments: everything but the popped final segment. -/
def frontSegs (path : String) : List String :=
  (pathSegs path).dropLast

/-- `last = path.pop()` (line 198); `splitOn` always returns at least one
segment, so the default is never used. -/
def lastSeg (path : String) : String :=
  (pathSegs path).getLastD ""

/-- One `{op, path, value}` operation of `_cmd_msoupdate` (lines 194-215),
up to but excluding the notification.  Mirrors the source order: extract
`op`, extract and split `path`, check `op` membership in
`("add", "replace")` (raising `NotImplementedError` otherwise, before any
state access), then extract `value` and perform the traversal-and-assign.
The device state is `none` before the initial `mso`; indexing it raises
`TypeError`.  Returns the new state together with the untouched path string
and the value, which feed the notification. -/
def msoupdatePiece (st : Option Json) (piece : Json) : Except PyErr (Json × String × Json) :=
  match jsonIndex piece (Json.str "op") with
  | Except.error e => Except.error e
  | Except.ok opJ =>
    match jsonIndex piece (Json.str "path") with
    | Except.error e => Except.error e
    | Except.ok pathJ =>
      match pathJ with
      | Json.str path =>
        match opJ with
        | Json.str op =>
          if op = "add" ∨ op = "replace" then
            match jsonIndex piece (Json.str "value") with
            | Except.error e => Except.error e
            | Except.ok value =>
              match st with
              | none => Except.error PyErr.typeError
              | some d =>
                match setAt value (lastSeg path) d (frontSegs path) with
                | Except.error e => Except.error e
                | Except.ok d2 => Except.ok (d2, path, value)
          else Except.error PyErr.notImplemented
        | _ => Except.error PyErr.notImplemented
      | _ => Except.error PyErr.typeError

/-- Subscriber callbacks are opaque; the registry keeps, per subject, the
callbacks in registration order (`subscribe` appends, lines 221-231). -/
def subscribeReg (subs : List (String × List Nat)) (subject : String) (cb : Nat) :
    List (String × List Nat) :=
  match alookup subject subs with
  | none => aset subject [cb] subs
  | some existing => aset subject (existing ++ [cb]) subs

/-- `_notify` (lines 233-238): look up the subject (missing or empty gives
`[]` via `.get(subject) or []`) and await each callback in list order with
the value.  The returned list records the calls made, in order. -/
def notify (subs : List (String × List Nat)) (subject : String) (value : Json) :
    List (Nat × Json) :=
  ((alookup subject subs).getD []).map (fun cb => (cb, value))

/-- The `for piece in payload` loop of `_cmd_msoupdate` (lines 194-217): each
piece is applied and its subscribers are notified before the next piece; an
exception stops the loop, keeping the state reached so far and the
notifications already delivered.  The triple is (state reached,
notifications delivered, exception if one was raised). -/
def cmdMsoupdateRun (subs : List (String × List Nat)) :
    Option Json → List Json → Option Json × List (Nat × Json) × Option PyErr
  | st, [] => (st, [], none)
  | st, piece :: rest =>
    match msoupdatePiece st piece with
    | Except.error e => (st, [], some e)
    | Except.ok (st2, path, value) =>
      let ns := notify subs path value
      match cmdMsoupdateRun subs (some st2) rest with
      | (st3, ns2, err) => (st3, ns ++ ns2, err)

/-- `if not isinstance(payload, list): payload = [payload]` (lines 191-192). -/
def coercePieces (payload : Json) : List Json :=
  match payload with
  | Json.arr ps => ps
  | j => [j]

/-- The client instance state.  Tasks and the socket are represented by
whether a live reference is held (`_websocket is not None`, etc.); `sent`
accumulates the payloads of `changemso` messages written to the socket. -/
structure Client where
  host : String
  websocketOpen : Bool
  recvTaskRunning : Bool
  tryConnectTaskRunning : Bool
  subscriptions : List (String × List Nat)
  state : Option Json
  stateReady : Bool
  tx : Option (List (String × Json))
  tryingToConnect : Bool
  sent : List (List Json)
deriving Repr

/-- `reset` (lines 56-60): drop the device state, drop any transaction,
clear the ready event. -/
def reset (c : Client) : Client :=
  { c with state := none, tx := none, stateReady := false }

/-- `connected` (lines 62-65). -/
def connected (c : Client) : Bool :=
  c.stateReady

/-- `_cmd_mso` (lines 185-188): replace the state wholesale, set ready. -/
def cmdMso (c : Client) (payload : Json) : Client :=
  { c with state := some payload, stateReady := true }

/-- `self._state[k]` for a top-level key: `TypeError` when the state is
`None` (never synced). -/
def stateIndexStr (c : Client) (k : String) : Except PyErr Json :=
  match c.state with
  | none => Except.error PyErr.typeError
  | some d => jsonIndex d (Json.str k)

/-- `__aenter__` (lines 242-247): refuse a second open transaction, raising
before anything is written, so the pending set is untouched; otherwise start
with an empty pending-write dict. -/
def aenter (c : Client) : Except PyErr Client :=
  match c.tx with
  | some _ => Except.error (PyErr.htp1 "transaction already in progress")
  | none => Except.ok { c with tx := some [] }

/-- `__aexit__` (lines 249-251): uncommitted changes are abandoned. -/
def aexit (c : Client) : Client :=
  { c with tx := none }

/-- The `changemso` ops array commit builds (lines 259-266): one replace
entry per pending key, in dict order. -/
def commitOps (tx0 : List (String × Json)) : List Json :=
  tx0.map (fun kv => Json.obj [("op", Json.str "replace"), ("path", Json.str kv.1), ("value", kv.2)])

/-- `commit` (lines 253-271): a falsy `_tx` (`None` or empty) returns
`False` with no send and no state change; otherwise the ops array is sent
over the socket (`AttributeError` on `None`), the pending set is cleared to
empty, and `True` is returned. -/
def commit (c : Client) : Except PyErr (Client × Bool) :=
  match c.tx with
  | none => Except.ok (c, false)
  | some [] => Except.ok (c, false)
  | some tx0 =>
    if c.websocketOpen then
      Except.ok ({ c with tx := some [], sent := c.sent ++ [commitOps tx0] }, true)
    else Except.error PyErr.attributeError

/-- `muted` getter (lines 290-297): try the pending-write dict first — a
`TypeError` (no transaction) or `KeyError` (key not written) falls through
to the device state, whose own errors propagate. -/
def muted (c : Client) : Except PyErr Json :=
  match c.tx with
  | some tx0 =>
    match alookup "/muted" tx0 with
    | some v => Except.ok v
    | none => stateIndexStr c "muted"
  | none => stateIndexStr c "muted"

/-- `muted` setter (lines 299-304): requires an open transaction. -/
def setMuted (c : Client) (v : Json) : Except PyErr Client :=
  match c.tx with
  | none => Except.error (PyErr.htp1 "no transaction in progress")
  | some tx0 => Except.ok { c with tx := some (aset "/muted" v tx0) }

/-- `volume` getter (lines 306-313). -/
def volume (c : Client) : Except PyErr Json :=
  match c.tx with
  | some tx0 =>
    match alookup "/volume" tx0 with
    | some v => Except.ok v
    | none => stateIndexStr c "volume"
  | none => stateIndexStr c "volume"

/-- `volume` setter (lines 315-320). -/
def setVolume (c : Client) (v : Json) : Except PyErr Client :=
  match c.tx with
  | none => Except.error (PyErr.htp1 "no transaction in progress")
  | some tx0 => Except.ok { c with tx := some (aset "/volume" v tx0) }

/-- The guarded `self._state["powerIsOn"]` read of the `power` getter. -/
def powerFallback (c : Client) : Except PyErr Json :=
  match stateIndexStr c "powerIsOn" with
  | Except.ok v => Except.ok v
  | Except.error _ => Except.ok Json.null

/-- `power` getter (lines 322-333): like the others, but errors reading the
device state are also swallowed, yielding `None`. -/
def power (c : Client) : Except PyErr Json :=
  match c.tx with
  | some tx0 =>
    match alookup "/powerIsOn" tx0 with
    | some v => Except.ok v
    | none => powerFallback c
  | none => powerFallback c

/-- `power` setter (lines 335-340). -/
def setPower (c : Client) (v : Json) : Except PyErr Client :=
  match c.tx with
  | none => Except.error (PyErr.htp1 "no transaction in progress")
  | some tx0 => Except.ok { c with tx := some (aset "/powerIsOn" v tx0) }

/-- The `_id` resolution of the `input` getter (lines 345-348). -/
def inputId (c : Client) : Except PyErr Json :=
  match c.tx with
  | some tx0 =>
    match alookup "/input" tx0 with
    | some v => Except.ok v
    | none => stateIndexStr c "input"
  | none => stateIndexStr c "input"

/-- `input` getter (lines 342-349): resolve the identifier (pending write
first), then return `self._state["inputs"][_id]["label"]`. -/
def input (c : Client) : Except PyErr Json :=
  match inputId c with
  | Except.error e => Except.error e
  | Except.ok _id =>
    match stateIndexStr c "inputs" with
    | Except.error e => Except.error e
    | Except.ok inputsJ =>
      match jsonIndex inputsJ _id with
      | Except.error e => Except.error e
      | Except.ok info => jsonIndex info (Json.str "label")

/-- The scan of `self._state["inputs"].items()` in the `input` setter
(lines 356-359): first entry whose `"label"` equals the requested label
(Python `==` on a non-string label is simply unequal), returning its key. -/
def findInputId (value : String) : List (String × Json) → Except PyErr (Option String)
  | [] => Except.ok none
  | (k, info) :: rest =>
    match jsonIndex info (Json.str "label") with
    | Except.ok (Json.str s) => if s = value then Except.ok (some k) else findInputId value rest
    | Except.ok _ => findInputId value rest
    | Except.error e => Except.error e

/-- `input` setter (lines 351-360): requires an open transaction, scans the
catalog by label and records the matching internal identifier under
`/input`; raises a lookup error — before touching the pending set — when no
label matches. -/
def setInput (c : Client) (value : String) : Except PyErr Client :=
  match c.tx with
  | none => Except.error (PyErr.htp1 "no transaction in progress")
  | some tx0 =>
    match stateIndexStr c "inputs" with
    | Except.error e => Except.error e
    | Except.ok (Json.obj ifs) =>
      match findInputId value ifs with
      | Except.error e => Except.error e
      | Except.ok (some k) => Except.ok { c with tx := some (aset "/input" (Json.str k) tx0) }
      | Except.ok none => Except.error (PyErr.htp1 "input not found")
    | Except.ok _ => Except.error PyErr.attributeError

/-- The `self._state["upmix"]["select"]` fallback of the `upmix` getter. -/
def upmixFallback (c : Client) : Except PyErr Json :=
  match stateIndexStr c "upmix" with
  | Except.error e => Except.error e
  | Except.ok u => jsonIndex u (Json.str "select")

/-- `upmix` getter (lines 371-378). -/
def upmix (c : Client) : Except PyErr Json :=
  match c.tx with
  | some tx0 =>
    match alookup "/upmix/select" tx0 with
    | some v => Except.ok v
    | none => upmixFallback c
  | none => upmixFallback c

/-- `upmix` setter (lines 380-385): requires an open transaction and stores
the given value directly under `/upmix/select` — unlike the `input` setter
there is no catalog scan and no lookup failure. -/
def setUpmix (c : Client) (v : Json) : Except PyErr Client :=
  match c.tx with
  | none => Except.error (PyErr.htp1 "no transaction in progress")
  | some tx0 => Except.ok { c with tx := some (aset "/upmix/select" v tx0) }

/-- `stop` (lines 176-181).  The source reads

    self._stop_connect()
    self._disconnect()
    self.reset()

`_stop_connect` and `_disconnect` are coroutine functions and the two calls
are not awaited, so the coroutine objects they create are discarded and
neither body ever runs; the sole effect of `stop` is `reset`. -/
def stop (c : Client) : Client :=
  reset c

/-- What `_stop_connect` (lines 140-146) does when its body actually runs
(it is awaited nowhere in the source): clear the should-connect flag, then
call `self._try_connect_task.cancel()` — an `AttributeError` when the task
reference is `None`, i.e. when `try_connect` was never started — and await
the cancelled task, whose `finally` clears the task reference. -/
def stopConnectBody (c : Client) : Except PyErr Client :=
  if c.tryConnectTaskRunning then
    Except.ok { c with tryingToConnect := false, tryConnectTaskRunning := false }
  else Except.error PyErr.attributeError

/-- `msg.split(" ", 1)` over the character list: split at the first space;
`none` when there is no space, in which case the two-name unpacking in the
source raises `ValueError`. -/
def splitFirstSpaceAux : List Char → Option (List Char × List Char)
  | [] => none
  | ch :: rest =>
    if ch = ' ' then some ([], rest)
    else
      match splitFirstSpaceAux rest with
      | some (a, b) => some (ch :: a, b)
      | none => none

/-- `cmd, payload = msg.split(" ", 1)` (line 162). -/
def splitFirstSpace (msg : String) : Option (String × String) :=
  match splitFirstSpaceAux msg.toList with
  | some (a, b) => some (String.mk a, String.mk b)
  | none => none

/-- Result of one text-frame iteration of the receive loop. -/
inductive RecvStep where
  | continued (c : Client)
  | fatal (e : PyErr)
deriving Repr

/-- One text-frame iteration of `_recveive` (lines 160-171), parameterised
by the JSON decoder `loads`.  The split and the `loads` call sit outside the
per-message `try` block: their exceptions terminate the loop (`fatal`).
Handler lookup is `getattr(self, "_cmd_" + cmd)`, which exists exactly for
`mso` and `msoupdate`; unknown commands are ignored.  The handler invocation
itself is guarded: any exception it raises is logged and the loop continues,
keeping whatever partial state the handler reached. -/
def processTextFrame (loads : String → Option Json) (c : Client) (msg : String) : RecvStep :=
  match splitFirstSpace msg with
  | none => RecvStep.fatal PyErr.valueError
  | some (cmd, payloadRaw) =>
    if cmd = "mso" ∨ cmd = "msoupdate" then
      match loads payloadRaw with
      | none => RecvStep.fatal PyErr.jsonDecode
      | some payload =>
        if cmd = "mso" then RecvStep.continued (cmdMso c payload)
        else
          match cmdMsoupdateRun c.subscriptions c.state (coercePieces payload) with
          | (st2, _, _) => RecvStep.continued { c with state := st2 }
    else RecvStep.continued c

/-- `RECONNECT_DELAY_INITIAL` (line 25). -/
def RECONNECT_DELAY_INITIAL : Nat := 5

/-- `RECONNECT_DELAY_MAX` (line 26). -/
def RECONNECT_DELAY_MAX : Nat := 300

/-- The backoff update of `_try_connect` (lines 131-132): after sleeping,
`sleep_time *= 2` then `sleep_time = min(sleep_time, RECONNECT_DELAY_MAX)`. -/
def nextDelay (d : Nat) : Nat :=
  min (d * 2) RECONNECT_DELAY_MAX

/-- The delay slept before retry `n` of one `_try_connect` episode:
`sleep_time` is a local of `_try_connect` initialised to
`RECONNECT_DELAY_INITIAL` (line 123), so every episode — in particular any
episode after a successful connect — restarts the sequence. -/
def retryDelay : Nat → Nat
  | 0 => RECONNECT_DELAY_INITIAL
  | n + 1 => nextDelay (retryDelay n)

/-! ### Helper lemmas -/

theorem alookup_aset_self {α : Type} (k : String) (v : α) :
    ∀ l : List (String × α), alookup k (aset k v l) = some v := by
  intro l
  induction l with
  | nil => simp [aset, alookup]
  | cons kv rest ih =>
    obtain ⟨k2, v2⟩ := kv
    by_cases h : k2 = k <;> simp [aset, alookup, h, ih]

theorem alookup_aset_other {α : Type} (k k2 : String) (v : α) (hne : k ≠ k2) :
    ∀ l : List (String × α), alookup k2 (aset k v l) = alookup k2 l := by
  intro l
  induction l with
  | nil => simp [aset, alookup, hne]
  | cons kv rest ih =>
    obtain ⟨k3, v3⟩ := kv
    by_cases h : k3 = k
    · subst h
      simp [aset, alookup, hne]
    · simp [aset, alookup, h, ih]

theorem get?_set_self {α : Type} :
    ∀ (xs : List α) (j : Nat) (v : α), j < xs.length → (xs.set j v).get? j = some v
  | _ :: _, 0, _, _ => rfl
  | _ :: xs, j + 1, v, h => get?_set_self xs j v (Nat.lt_of_succ_lt_succ h)

theorem lt_of_get?_eq_some {α : Type} :
    ∀ (xs : List α) (j : Nat) (c : α), xs.get? j = some c → j < xs.length
  | [], j, c, h => by simp at h
  | _ :: _, 0, _, _ => Nat.succ_pos _
  | _ :: xs, j + 1, c, h => Nat.succ_lt_succ (lt_of_get?_eq_some xs j c h)

theorem listGet_listSet_self {α : Type} (xs : List α) (i : Int) (c v : α)
    (h : listGet xs i = some c) : listGet (listSet xs i v) i = some v := by
  unfold listGet listSet at *
  by_cases hneg : normIdx xs.length i < 0
  · simp [hneg] at h
  · simp only [hneg, if_false] at h ⊢
    have hlt : (normIdx xs.length i).toNat < xs.length := lt_of_get?_eq_some xs _ c h
    rw [List.length_set, if_neg hneg]
    exact get?_set_self xs _ v hlt

/-- Writing with `setAt` and reading back with `getAt` along the same path
yields the written value: the substance of patch application landing at the
resolved location. -/
theorem getAt_setAt (value : Json) (last : String) :
    ∀ (segs : List String) (d d2 : Json),
      setAt value last d segs = Except.ok d2 → getAt d2 segs last = some value := by
  intro segs
  induction segs with
  | nil =>
    intro d d2 h
    cases d <;> simp only [setAt] at h <;> try exact Except.noConfusion h
    case obj fs =>
      cases h
      simp [getAt, alookup_aset_self]
  | cons node rest ih =>
    intro d d2 h
    cases d <;> simp only [setAt] at h <;> try exact Except.noConfusion h
    case arr xs =>
      split at h
      · exact Except.noConfusion h
      · rename_i i hti
        split at h
        · exact Except.noConfusion h
        · rename_i child hg
          split at h
          · rename_i child2 hs
            cases h
            simp only [getAt, hti]
            rw [listGet_listSet_self xs i child child2 hg]
            exact ih child child2 hs
          · exact Except.noConfusion h
    case obj fs =>
      split at h
      · exact Except.noConfusion h
      · rename_i child hl
        split at h
        · rename_i child2 hs
          cases h
          simp only [getAt]
          rw [alookup_aset_self node child2 fs]
          exact ih child child2 hs
        · exact Except.noConfusion h

theorem findInputId_mem (value : String) :
    ∀ (fs : List (String × Json)) (k : String),
      findInputId value fs = Except.ok (some k) → k ∈ fs.map Prod.fst := by
  intro fs
  induction fs with
  | nil => intro k h; exact Option.noConfusion (Except.ok.inj h)
  | cons kv rest ih =>
    obtain ⟨k2, info⟩ := kv
    intro k h
    simp only [findInputId] at h
    split at h
    · rename_i s hlab
      split at h
      · cases Option.some.inj (Except.ok.inj h)
        simp
      · simp only [List.map_cons, List.mem_cons]
        exact Or.inr (ih k h)
    · rename_i hlab hne
      simp only [List.map_cons, List.mem_cons]
      exact Or.inr (ih k h)
    · exact Except.noConfusion h

theorem findInputId_lookup (value : String) :
    ∀ (fs : List (String × Json)) (k : String),
      (fs.map Prod.fst).Nodup →
      findInputId value fs = Except.ok (some k) →
      ∃ info, alookup k fs = some info ∧
        jsonIndex info (Json.str "label") = Except.ok (Json.str value) := by
  intro fs
  induction fs with
  | nil => intro k _ h; exact absurd (Except.ok.inj h) (by simp)
  | cons kv rest ih =>
    obtain ⟨k2, info⟩ := kv
    intro k hnd h
    simp only [List.map_cons, List.nodup_cons] at hnd
    simp only [findInputId] at h
    split at h
    · rename_i s hlab
      split at h
      · rename_i hs
        cases Option.some.inj (Except.ok.inj h)
        refine ⟨info, ?_, ?_⟩
        · simp [alookup]
        · rw [hlab, hs]
      · obtain ⟨info2, hlook, hlab2⟩ := ih k hnd.2 h
        have hk : k2 ≠ k := fun hkk => hnd.1 (hkk ▸ findInputId_mem value rest k h)
        exact ⟨info2, by simp [alookup, hk, hlook], hlab2⟩
    · rename_i hlab hne
      obtain ⟨info2, hlook, hlab2⟩ := ih k hnd.2 h
      have hk : k2 ≠ k := fun hkk => hnd.1 (hkk ▸ findInputId_mem value rest k h)
      exact ⟨info2, by simp [alookup, hk, hlook], hlab2⟩
    · exact Except.noConfusion h

theorem splitFirstSpaceAux_none :
    ∀ l : List Char, (∀ ch ∈ l, ch ≠ ' ') → splitFirstSpaceAux l = none := by
  intro l
  induction l with
  | nil => intro; rfl
  | cons ch rest ih =>
    intro h
    have hch : ch ≠ ' ' := h ch (List.mem_cons_self ch rest)
    simp only [splitFirstSpaceAux, if_neg hch]
    rw [ih (fun c hc => h c (List.mem_cons_of_mem ch hc))]

theorem splitFirstSpaceAux_append (b : List Char) :
    ∀ a : List Char, (∀ ch ∈ a, ch ≠ ' ') →
      splitFirstSpaceAux (a ++ ' ' :: b) = some (a, b) := by
  intro a
  induction a with
  | nil => intro; rfl
  | cons ch rest ih =>
    intro h
    have hch : ch ≠ ' ' := h ch (List.mem_cons_self ch rest)
    simp only [List.cons_append, splitFirstSpaceAux, if_neg hch, List.append_eq]
    rw [ih (fun c hc => h c (List.mem_cons_of_mem ch hc))]

/-! ### Concrete fixtures for the witnesses -/

/-- A small but representative device state. -/
def sampleState : Json :=
  Json.obj [
    ("muted", Json.bool false),
    ("volume", Json.num (-20)),
    ("powerIsOn", Json.bool true),
    ("input", Json.str "h1"),
    ("inputs", Json.obj [
      ("h1", Json.obj [("label", Json.str "HDMI 1"), ("visible", Json.bool true)]),
      ("h2", Json.obj [("label", Json.str "HDMI 2"), ("visible", Json.bool true)])]),
    ("upmix", Json.obj [
      ("select", Json.str "direct"),
      ("dolby", Json.obj [("homevis", Json.bool true)])])]

/-- `sampleState` after `/volume` is replaced by `-10`. -/
def sampleState2 : Json :=
  Json.obj [
    ("muted", Json.bool false),
    ("volume", Json.num (-10)),
    ("powerIsOn", Json.bool true),
    ("input", Json.str "h1"),
    ("inputs", Json.obj [
      ("h1", Json.obj [("label", Json.str "HDMI 1"), ("visible", Json.bool true)]),
      ("h2", Json.obj [("label", Json.str "HDMI 2"), ("visible", Json.bool true)])]),
    ("upmix", Json.obj [
      ("select", Json.str "direct"),
      ("dolby", Json.obj [("homevis", Json.bool true)])])]

/-- A ready client with two subscribers registered for `/volume`, no open
transaction. -/
def sampleClient : Client :=
  { host := "htp1.local"
    websocketOpen := true
    recvTaskRunning := true
    tryConnectTaskRunning := false
    subscriptions := [("/volume", [0, 1])]
    state := some sampleState
    stateReady := true
    tx := none
    tryingToConnect := false
    sent := [] }

/-- `sampleClient` with an open, still-empty transaction. -/
def sampleClientTx : Client :=
  { sampleClient with tx := some [] }

/-- A `{op, path, value}` operation object replacing `/volume` with `-10`. -/
def samplePiece : Json :=
  Json.obj [("op", Json.str "replace"), ("path", Json.str "/volume"), ("value", Json.num (-10))]

/-! ### Claims -/

/-- C1: an `msoupdate` operation with op `add` or `replace` and a
slash-delimited absolute path, applied while the device state is present
and the path resolves, assigns the value at the resolved location — the
parent container is resolved by every segment but the last, mapping nodes
by key and sequence nodes by the segment parsed as an integer index, and
the final segment assigns — and immediately after the mutation the
subscribers registered for that exact path string each receive exactly one
notification carrying the new value, in registration order (the registry
stores callbacks for a subject in registration order and `notify` calls
them by one ordered traversal). -/
theorem msoupdate_sets_value_and_notifies
    (subs : List (String × List Nat)) (st st2 : Json) (op path : String) (value : Json)
    (hop : op = "add" ∨ op = "replace")
    (hset : setAt value (lastSeg path) st (frontSegs path) = Except.ok st2) :
    cmdMsoupdateRun subs (some st)
        [Json.obj [("op", Json.str op), ("path", Json.str path), ("value", value)]]
      = (some st2, notify subs path value, none)
    ∧ getAt st2 (frontSegs path) (lastSeg path) = some value
    ∧ notify subs path value
        = ((alookup path subs).getD []).map (fun cb => (cb, value)) := by
  refine ⟨?_, getAt_setAt value (lastSeg path) (frontSegs path) st st2 hset, rfl⟩
  have hpiece : msoupdatePiece (some st)
      (Json.obj [("op", Json.str op), ("path", Json.str path), ("value", value)])
      = Except.ok (st2, path, value) := by
    rcases hop with h | h <;> subst h
    · have heq : msoupdatePiece (some st)
          (Json.obj [("op", Json.str "add"), ("path", Json.str path), ("value", value)])
          = (match setAt value (lastSeg path) st (frontSegs path) with
             | Except.error e => Except.error e
             | Except.ok d2 => Except.ok (d2, path, value)) := rfl
      rw [heq, hset]
    · have heq : msoupdatePiece (some st)
          (Json.obj [("op", Json.str "replace"), ("path", Json.str path), ("value", value)])
          = (match setAt value (lastSeg path) st (frontSegs path) with
             | Except.error e => Except.error e
             | Except.ok d2 => Except.ok (d2, path, value)) := rfl
      rw [heq, hset]
  simp [cmdMsoupdateRun, hpiece]

/-- C1 witness: replacing `/volume` with `-10` on the sample state lands at
the location and both `/volume` subscribers are notified, in order. -/
theorem msoupdate_sets_value_and_notifies_witness :
    cmdMsoupdateRun [("/volume", [0, 1])] (some sampleState) [samplePiece]
      = (some sampleState2, [(0, Json.num (-10)), (1, Json.num (-10))], none)
    ∧ getAt sampleState2 (frontSegs "/volume") (lastSeg "/volume") = some (Json.num (-10)) := by
  have h := msoupdate_sets_value_and_notifies [("/volume", [0, 1])] sampleState sampleState2
    "replace" "/volume" (Json.num (-10)) (Or.inr rfl) (by rfl)
  exact ⟨h.1, h.2.1⟩

/-- C8: an `msoupdate` operation whose op is neither `add` nor `replace`
raises `NotImplementedError` — the loop reports the failure rather than
silently ignoring the operation — and, the raise coming before the
assignment, a single-operation payload leaves the device state unchanged
and delivers no notification. -/
theorem msoupdate_unknown_op_fails
    (subs : List (String × List Nat)) (st : Option Json) (op path : String) (value : Json)
    (hop1 : op ≠ "add") (hop2 : op ≠ "replace") :
    cmdMsoupdateRun subs st
        [Json.obj [("op", Json.str op), ("path", Json.str path), ("value", value)]]
      = (st, [], some PyErr.notImplemented) := by
  have hpiece : msoupdatePiece st
      (Json.obj [("op", Json.str op), ("path", Json.str path), ("value", value)])
      = Except.error PyErr.notImplemented := by
    have heq : msoupdatePiece st
        (Json.obj [("op", Json.str op), ("path", Json.str path), ("value", value)])
        = (if op = "add" ∨ op = "replace" then
             (match st with
              | none => Except.error PyErr.typeError
              | some d =>
                match setAt value (lastSeg path) d (frontSegs path) with
                | Except.error e => Except.error e
                | Except.ok d2 => Except.ok (d2, path, value))
           else Except.error PyErr.notImplemented) := rfl
    rw [heq, if_neg (by simp [hop1, hop2])]
  simp [cmdMsoupdateRun, hpiece]

/-- C8 witness: a `remove` operation on the sample state fails with
`NotImplementedError`, leaving the state as it was. -/
theorem msoupdate_unknown_op_fails_witness :
    cmdMsoupdateRun [("/volume", [0, 1])] (some sampleState)
        [Json.obj [("op", Json.str "remove"), ("path", Json.str "/volume"), ("value", Json.null)]]
      = (some sampleState, [], some PyErr.notImplemented) :=
  msoupdate_unknown_op_fails [("/volume", [0, 1])] (some sampleState) "remove" "/volume"
    Json.null (by decide) (by decide)

/-- C2: committing a transaction that holds at least one pending write
returns true and leaves the pending-write set empty; a field written in the
transaction (here the volume, the representative the claim's sources point
at), read after commit and before the device's `msoupdate` echo has been
processed, therefore falls through to the pre-write device state value
rather than the committed value. -/
theorem commit_clears_pending_and_reads_regress
    (c : Client) (tx0 : List (String × Json)) (v dv : Json)
    (htx : c.tx = some tx0) (hne : tx0 ≠ [])
    (hws : c.websocketOpen = true)
    (hv : alookup "/volume" tx0 = some v)
    (hdev : stateIndexStr c "volume" = Except.ok dv) :
    ∃ c1, commit c = Except.ok (c1, true)
      ∧ c1.tx = some []
      ∧ volume c1 = Except.ok dv
      ∧ volume c = Except.ok v
      ∧ (dv ≠ v → volume c1 ≠ Except.ok v) := by
  obtain ⟨a, tx1, rfl⟩ : ∃ a tx1, tx0 = a :: tx1 := by
    cases tx0 with
    | nil => exact absurd rfl hne
    | cons a tx1 => exact ⟨a, tx1, rfl⟩
  refine ⟨{ c with tx := some [], sent := c.sent ++ [commitOps (a :: tx1)] }, ?_, rfl, ?_, ?_, ?_⟩
  · simp [commit, htx, hws]
  · simpa [volume, alookup, stateIndexStr] using hdev
  · simp [volume, htx, hv]
  · intro hne2 hcontra
    have h1 : volume { c with tx := some [], sent := c.sent ++ [commitOps (a :: tx1)] }
        = Except.ok dv := by
      simpa [volume, alookup, stateIndexStr] using hdev
    rw [h1] at hcontra
    exact hne2 (Except.ok.inj hcontra)

/-- The sample client with one pending volume write. -/
def sampleCommitClient : Client :=
  { sampleClient with tx := some [("/volume", Json.num (-10))] }

/-- C2 witness: commit a pending `/volume := -10` over a device volume of
`-20`; afterwards the pending set is empty and the read regresses to
`-20`. -/
theorem commit_clears_pending_and_reads_regress_witness :
    ∃ c1, commit sampleCommitClient = Except.ok (c1, true)
      ∧ c1.tx = some []
      ∧ volume c1 = Except.ok (Json.num (-20))
      ∧ volume sampleCommitClient = Except.ok (Json.num (-10))
      ∧ (Json.num (-20) ≠ Json.num (-10) → volume c1 ≠ Except.ok (Json.num (-10))) :=
  commit_clears_pending_and_reads_regress sampleCommitClient [("/volume", Json.num (-10))]
    (Json.num (-10)) (Json.num (-20)) rfl (by simp) rfl rfl rfl

/-- C9: committing with an empty pending-write set returns false and is a
complete no-op — the very same client is returned, so nothing was appended
to the socket send log and no state changed. -/
theorem commit_empty_noop (c : Client) (h : c.tx = some []) :
    commit c = Except.ok (c, false) := by
  simp [commit, h]

/-- C9 witness: an empty commit on the sample client with an open, empty
transaction. -/
theorem commit_empty_noop_witness :
    commit sampleClientTx = Except.ok (sampleClientTx, false) :=
  commit_empty_noop sampleClientTx rfl

/-- C7: opening a transaction while one is open raises a usage error; the
raise happens before `_tx` is touched, so the existing pending-write set is
unmutated (in this embedding an error produces no successor state at all).
At most one transaction can ever be open because the client holds a single
optional pending-write set — `tx` here, `self._tx` in the source. -/
theorem aenter_second_transaction_fails
    (c : Client) (t : List (String × Json)) (h : c.tx = some t) :
    aenter c = Except.error (PyErr.htp1 "transaction already in progress") := by
  simp [aenter, h]

/-- C7 witness: opening on top of the open (empty) transaction fails. -/
theorem aenter_second_transaction_fails_witness :
    aenter sampleClientTx = Except.error (PyErr.htp1 "transaction already in progress") :=
  aenter_second_transaction_fails sampleClientTx [] rfl

/-- A client that is connected with a live reconnect supervisor. -/
def connectedClient : Client :=
  { sampleClient with tryConnectTaskRunning := true, tryingToConnect := true }

/-- A client that was constructed but never connected. -/
def freshClient : Client :=
  { host := "htp1.local"
    websocketOpen := false
    recvTaskRunning := false
    tryConnectTaskRunning := false
    subscriptions := []
    state := none
    stateReady := false
    tx := none
    tryingToConnect := false
    sent := [] }

/-- C3 (the code contradicts the claim): `stop` invokes the coroutine
functions `_stop_connect()` and `_disconnect()` without awaiting them, so
neither body ever runs.  After `stop` on a connected client the websocket
is still open, the receive task and the reconnect supervisor are still
running, and the should-connect flag is still set — only the `reset` part
(state, pending writes, ready signal) happens.  Moreover `_stop_connect`'s
body, whenever it does run, calls `.cancel()` on a `None` task reference
when the client never connected, so even the intended sequence is not safe
in that case. -/
theorem stop_leaves_connection_running :
    (stop connectedClient).websocketOpen = true
    ∧ (stop connectedClient).recvTaskRunning = true
    ∧ (stop connectedClient).tryConnectTaskRunning = true
    ∧ (stop connectedClient).tryingToConnect = true
    ∧ (stop connectedClient).state = none
    ∧ (stop connectedClient).tx = none
    ∧ (stop connectedClient).stateReady = false
    ∧ stopConnectBody freshClient = Except.error PyErr.attributeError :=
  ⟨rfl, rfl, rfl, rfl, rfl, rfl, rfl, rfl⟩

/-- C6: the reconnect sleep delay starts at the initial value 5, doubles
after each failed attempt capped at the maximum 300 — hence it is
non-decreasing and never exceeds 300.  `sleep_time` is local to one
`_try_connect` episode and the loop exits on success, so the episode after
any successful connect restarts at `retryDelay 0 = 5`. -/
theorem backoff_bounds :
    retryDelay 0 = 5
    ∧ (∀ n, retryDelay (n + 1) = min (2 * retryDelay n) 300)
    ∧ (∀ n, retryDelay n ≤ retryDelay (n + 1))
    ∧ (∀ n, retryDelay n ≤ 300) := by
  have hb : ∀ n, retryDelay n ≤ 300 := by
    intro n
    cases n with
    | zero => simp [retryDelay, RECONNECT_DELAY_INITIAL]
    | succ n =>
      simp only [retryDelay, nextDelay, RECONNECT_DELAY_MAX]
      exact min_le_right _ _
  refine ⟨rfl, ?_, ?_, hb⟩
  · intro n
    simp [retryDelay, nextDelay, RECONNECT_DELAY_MAX, Nat.mul_comm]
  · intro n
    simp only [retryDelay, nextDelay, RECONNECT_DELAY_MAX]
    exact le_min (by omega) (hb n)

/-- C6 witness: the recurrence evaluated one step in from the start. -/
theorem backoff_bounds_witness :
    retryDelay 1 = min (2 * retryDelay 0) 300 :=
  backoff_bounds.2.1 0

/-- C4 counterexample: with a transaction open, setting the upmix to a
value that names no upmix in the device catalog (`"bogus"` is not among
`sampleState`'s upmixes) does not fail with a lookup error — it succeeds
and stores the value into the pending-write set, because the upmix setter
never consults the catalog. -/
theorem upmix_setter_accepts_unknown_value :
    setUpmix sampleClientTx (Json.str "bogus")
      = Except.ok { sampleClientTx with tx := some [("/upmix/select", Json.str "bogus")] } :=
  rfl

/-- C4 amended: with a transaction open, the input setter resolves the
given label against the inputs catalog of the device state and stores the
matching entry's internal identifier under `/input`; if no label matches,
it raises a lookup error before touching the pending-write set (and it
never writes to the socket).  The upmix setter, in contrast, performs no
catalog lookup at all: it stores the given value directly under
`/upmix/select` and cannot fail on an unknown value. -/
theorem selector_setters
    (c : Client) (tx0 sfs ifs : List (String × Json))
    (htx : c.tx = some tx0)
    (hst : c.state = some (Json.obj sfs))
    (hinp : alookup "inputs" sfs = some (Json.obj ifs)) :
    (∀ value, findInputId value ifs = Except.ok none →
        setInput c value = Except.error (PyErr.htp1 "input not found"))
    ∧ (∀ value k, findInputId value ifs = Except.ok (some k) →
        setInput c value = Except.ok { c with tx := some (aset "/input" (Json.str k) tx0) })
    ∧ (∀ v, setUpmix c v = Except.ok { c with tx := some (aset "/upmix/select" v tx0) }) := by
  refine ⟨?_, ?_, ?_⟩
  · intro value hfind
    simp [setInput, htx, stateIndexStr, hst, jsonIndex, hinp, hfind]
  · intro value k hfind
    simp [setInput, htx, stateIndexStr, hst, jsonIndex, hinp, hfind]
  · intro v
    simp [setUpmix, htx]

/-- C4 witness for the amended statement: on the sample catalog, label
`"Nope"` fails the input lookup, label `"HDMI 2"` stores identifier `h2`,
and the upmix setter stores an arbitrary value verbatim. -/
theorem selector_setters_witness :
    setInput sampleClientTx "Nope" = Except.error (PyErr.htp1 "input not found")
    ∧ setInput sampleClientTx "HDMI 2"
        = Except.ok { sampleClientTx with tx := some [("/input", Json.str "h2")] }
    ∧ setUpmix sampleClientTx (Json.str "movie")
        = Except.ok { sampleClientTx with tx := some [("/upmix/select", Json.str "movie")] } := by
  have h := selector_setters sampleClientTx []
    [("muted", Json.bool false),
     ("volume", Json.num (-20)),
     ("powerIsOn", Json.bool true),
     ("input", Json.str "h1"),
     ("inputs", Json.obj [
       ("h1", Json.obj [("label", Json.str "HDMI 1"), ("visible", Json.bool true)]),
       ("h2", Json.obj [("label", Json.str "HDMI 2"), ("visible", Json.bool true)])]),
     ("upmix", Json.obj [
       ("select", Json.str "direct"),
       ("dolby", Json.obj [("homevis", Json.bool true)])])]
    [("h1", Json.obj [("label", Json.str "HDMI 1"), ("visible", Json.bool true)]),
     ("h2", Json.obj [("label", Json.str "HDMI 2"), ("visible", Json.bool true)])]
    rfl rfl rfl
  exact ⟨h.1 "Nope" rfl, h.2.1 "HDMI 2" "h2" rfl, h.2.2 (Json.str "movie")⟩

/-- C5: read-your-own-write.  With a transaction open, after a setter
stores a value, the corresponding getter — queried before commit — returns
the just-set value (pending writes shadow the device state); for the
label-resolved input field, the getter resolves the stored identifier back
through the unchanged catalog to exactly the label that was set. -/
theorem read_your_own_write
    (c : Client) (sfs ifs : List (String × Json))
    (hst : c.state = some (Json.obj sfs))
    (hinp : alookup "inputs" sfs = some (Json.obj ifs))
    (hnd : (ifs.map Prod.fst).Nodup) :
    (∀ v c1, setVolume c v = Except.ok c1 → volume c1 = Except.ok v)
    ∧ (∀ v c1, setMuted c v = Except.ok c1 → muted c1 = Except.ok v)
    ∧ (∀ v c1, setPower c v = Except.ok c1 → power c1 = Except.ok v)
    ∧ (∀ v c1, setUpmix c v = Except.ok c1 → upmix c1 = Except.ok v)
    ∧ (∀ value c1, setInput c value = Except.ok c1 → input c1 = Except.ok (Json.str value)) := by
  refine ⟨?_, ?_, ?_, ?_, ?_⟩
  · intro v c1 h
    cases htx : c.tx with
    | none => simp [setVolume, htx] at h
    | some tx0 =>
      simp [setVolume, htx] at h
      subst h
      simp [volume, alookup_aset_self]
  · intro v c1 h
    cases htx : c.tx with
    | none => simp [setMuted, htx] at h
    | some tx0 =>
      simp [setMuted, htx] at h
      subst h
      simp [muted, alookup_aset_self]
  · intro v c1 h
    cases htx : c.tx with
    | none => simp [setPower, htx] at h
    | some tx0 =>
      simp [setPower, htx] at h
      subst h
      simp [power, alookup_aset_self]
  · intro v c1 h
    cases htx : c.tx with
    | none => simp [setUpmix, htx] at h
    | some tx0 =>
      simp [setUpmix, htx] at h
      subst h
      simp [upmix, alookup_aset_self]
  · intro value c1 h
    cases htx : c.tx with
    | none => simp [setInput, htx] at h
    | some tx0 =>
      simp [setInput, htx, stateIndexStr, hst, jsonIndex, hinp] at h
      cases hfind : findInputId value ifs with
      | error e => rw [hfind] at h; simp at h
      | ok o =>
        cases o with
        | none => rw [hfind] at h; simp at h
        | some k =>
          rw [hfind] at h
          simp at h
          subst h
          obtain ⟨info, hlook, hlab⟩ := findInputId_lookup value ifs k hnd hfind
          have hlab2 := hlab
          simp only [jsonIndex] at hlab2
          simp [input, inputId, alookup_aset_self, stateIndexStr, hst, jsonIndex, hinp, hlook,
            hlab2]

/-- C5 witness: setting the volume to `-5` reads back `-5`; setting the
input to label `HDMI 2` (stored as identifier `h2`) reads back `HDMI 2`,
not the device state's current `HDMI 1`. -/
theorem read_your_own_write_witness :
    volume { sampleClientTx with tx := some [("/volume", Json.num (-5))] }
        = Except.ok (Json.num (-5))
    ∧ input { sampleClientTx with tx := some [("/input", Json.str "h2")] }
        = Except.ok (Json.str "HDMI 2") := by
  have h := read_your_own_write sampleClientTx
    [("muted", Json.bool false),
     ("volume", Json.num (-20)),
     ("powerIsOn", Json.bool true),
     ("input", Json.str "h1"),
     ("inputs", Json.obj [
       ("h1", Json.obj [("label", Json.str "HDMI 1"), ("visible", Json.bool true)]),
       ("h2", Json.obj [("label", Json.str "HDMI 2"), ("visible", Json.bool true)])]),
     ("upmix", Json.obj [
       ("select", Json.str "direct"),
       ("dolby", Json.obj [("homevis", Json.bool true)])])]
    [("h1", Json.obj [("label", Json.str "HDMI 1"), ("visible", Json.bool true)]),
     ("h2", Json.obj [("label", Json.str "HDMI 2"), ("visible", Json.bool true)])]
    rfl rfl (by simp)
  exact ⟨h.1 (Json.num (-5)) _ rfl, h.2.2.2.2 "HDMI 2" _ rfl⟩

theorem splitFirstSpace_append (cmd payloadRaw : String)
    (h : ∀ ch ∈ cmd.toList, ch ≠ ' ') :
    splitFirstSpace (cmd ++ " " ++ payloadRaw) = some (cmd, payloadRaw) := by
  have hl : (cmd ++ " " ++ payloadRaw).toList = cmd.toList ++ ' ' :: payloadRaw.toList := by
    simp [String.toList]
  unfold splitFirstSpace
  rw [hl, splitFirstSpaceAux_append payloadRaw.toList cmd.toList h]
  rfl

/-- C10: the per-message exception guard of the receive loop covers only
the handler invocation.  (a) A text frame with no space separator fails the
two-target unpacking with a `ValueError` outside the guard, terminating the
loop.  (b) A frame whose command has a registered handler (`mso` or
`msoupdate`) but whose payload the JSON decoder rejects raises the decode
error outside the guard, terminating the loop.  (c) An exception raised
inside the `msoupdate` handler itself is caught: the loop continues,
carrying whatever state the handler reached before raising. -/
theorem recv_guard_scope :
    (∀ (loads : String → Option Json) (c : Client) (msg : String),
        (∀ ch ∈ msg.toList, ch ≠ ' ') →
        processTextFrame loads c msg = RecvStep.fatal PyErr.valueError)
    ∧ (∀ (loads : String → Option Json) (c : Client) (cmd payloadRaw : String),
        (cmd = "mso" ∨ cmd = "msoupdate") →
        loads payloadRaw = none →
        processTextFrame loads c (cmd ++ " " ++ payloadRaw) = RecvStep.fatal PyErr.jsonDecode)
    ∧ (∀ (loads : String → Option Json) (c : Client) (payloadRaw : String) (payload : Json)
        (st2 : Option Json) (ns : List (Nat × Json)) (e : PyErr),
        loads payloadRaw = some payload →
        cmdMsoupdateRun c.subscriptions c.state (coercePieces payload) = (st2, ns, some e) →
        processTextFrame loads c ("msoupdate" ++ " " ++ payloadRaw)
          = RecvStep.continued { c with state := st2 }) := by
  refine ⟨?_, ?_, ?_⟩
  · intro loads c msg h
    have hs : splitFirstSpace msg = none := by
      unfold splitFirstSpace
      rw [splitFirstSpaceAux_none msg.toList h]
    simp [processTextFrame, hs]
  · intro loads c cmd payloadRaw hcmd hload
    rcases hcmd with h | h <;> subst h
    · rw [processTextFrame, splitFirstSpace_append "mso" payloadRaw (by decide)]
      simp [hload]
    · rw [processTextFrame, splitFirstSpace_append "msoupdate" payloadRaw (by decide)]
      simp [hload]
  · intro loads c payloadRaw payload st2 ns e hload hrun
    rw [processTextFrame, splitFirstSpace_append "msoupdate" payloadRaw (by decide)]
    simp [hload, hrun]

/-- The bad-op operation object used by the C10 witness. -/
def badPiece : Json :=
  Json.obj [("op", Json.str "remove"), ("path", Json.str "/volume"), ("value", Json.null)]

/-- C10 witness: a spaceless frame kills the loop; `mso` with an undecodable
payload kills it; `msoupdate` with a decodable payload whose op is
unsupported is caught by the guard and the loop continues. -/
theorem recv_guard_scope_witness :
    processTextFrame (fun _ => none) sampleClient "getmso" = RecvStep.fatal PyErr.valueError
    ∧ processTextFrame (fun _ => none) sampleClient ("mso" ++ " " ++ "x")
        = RecvStep.fatal PyErr.jsonDecode
    ∧ processTextFrame (fun _ => some badPiece) sampleClient ("msoupdate" ++ " " ++ "x")
        = RecvStep.continued { sampleClient with state := some sampleState } := by
  refine ⟨?_, ?_, ?_⟩
  · exact recv_guard_scope.1 (fun _ => none) sampleClient "getmso" (by decide)
  · exact recv_guard_scope.2.1 (fun _ => none) sampleClient "mso" "x" (Or.inl rfl) rfl
  · exact recv_guard_scope.2.2 (fun _ => some badPiece) sampleClient "x" badPiece
      (some sampleState) [] PyErr.notImplemented rfl rfl

end Htp1
